import Mathlib

/-!
Shallow embedding of the radar backend place-resolution, dedup/merge and
aggregation logic, together with proofs checking the natural-language
specification against it.

Conventions of the embedding:
* SQL rows of the places table become the structure Place; the table becomes a
  List Place in insertion order; the autoincrement primary key is threaded as a
  nextId counter.
* DateTime columns are modelled as integer timestamps measured in days, so the
  7-day and 30-day windows of the trending query become subtractions by 7
  and 30.
* Float columns (lat, lng, rating) are modelled as rationals; the trending
  score, an exact multiple of 0.5, is stored doubled as a natural number so
  the kernel can evaluate it — no claim depends on floating-point rounding.
* JSON columns are modelled by their parsed content (opening_hours stores the
  weekday_text list, tags stores the list of strings); NULL becomes none.
* External HTTP calls (Google text search, place details) are modelled by
  oracle functions passed as arguments, returning none on failure or no
  result, mirroring the source functions that return None in those cases.
* Python stable sorts (list.sort with a key) and SQL ORDER BY are modelled by
  stable insertion sorts; a stable sort result is uniquely determined by the
  key, so the choice of algorithm is immaterial.
-/

namespace Radar

/-- Boolean substring test, modelling the Python expression pat in s on
strings. -/
def strContainsSub (s pat : String) : Bool := decide (pat.toList <:+: s.toList)

/-- Lowercasing, modelling Python str.lower on the ASCII strings involved
(character-by-character lowercase, defined by a structural map so the kernel
can evaluate it). -/
def strToLower (s : String) : String := String.mk (s.data.map Char.toLower)

/-- One row of the places table (src/backend/models.py, class Place). -/
structure Place where
  id : Nat
  user_id : Nat
  name : String
  address : Option String := none
  district : Option String := none
  lat : ℚ
  lng : ℚ
  google_place_id : Option String := none
  photo_url : Option String := none
  rating : Option ℚ := none
  price_level : Option Int := none
  opening_hours : Option (List String) := none
  phone : Option String := none
  website : Option String := none
  category : String
  emoji : String := "📍"
  source_platform : Option String := none
  source_url : Option String := none
  source_caption : Option String := none
  is_visited : Bool := false
  is_favorite : Bool := false
  user_notes : Option String := none
  tags : Option (List String) := none
  created_at : Int
  updated_at : Int
deriving Repr, DecidableEq

/-- CATEGORY_EMOJIS from src/backend/models.py, as an association list. -/
def CATEGORY_EMOJIS : List (String × String) :=
  [("eat", "🍽️"), ("cafes", "☕"), ("bars", "🍸"), ("shops", "🛍️"),
   ("leisure", "🎭"), ("go_out", "✨"), ("nature", "🌳"), ("culture", "🎨"),
   ("fitness", "💪"), ("beauty", "💅"), ("default", "📍")]

/-- get_emoji_for_category from src/backend/models.py. -/
def get_emoji_for_category (category : String) : String :=
  match CATEGORY_EMOJIS.find? (fun e => e.1 == strToLower category) with
  | some e => e.2
  | none => "📍"

/-- get_category_from_tags from src/backend/models.py: derive the internal
category from Google Places types or AI-extracted tags, checking the keyword
buckets in the exact order of the source (cafes, bars, shops, leisure, go_out,
nature, culture, restaurants last) with a default of eat. -/
def get_category_from_tags (tags : List String) : String :=
  if tags.isEmpty then "eat"
  else
    let tagsLower := tags.map strToLower
    if (["cafe", "coffee", "espresso", "latte", "cappuccino",
         "coffee_shop"]).any (fun w => tagsLower.contains w) then "cafes"
    else if (["bar", "cocktail", "wine", "beer", "pub", "nightlife",
         "night_club", "liquor_store"]).any (fun w => tagsLower.contains w) then "bars"
    else if (["shop", "store", "boutique", "retail", "shopping",
         "clothing_store", "shopping_mall", "book_store",
         "jewelry_store"]).any (fun w => tagsLower.contains w) then "shops"
    else if (["cinema", "theater", "entertainment", "activity", "fun",
         "movie_theater", "amusement_park", "bowling_alley", "casino",
         "stadium"]).any (fun w => tagsLower.contains w) then "leisure"
    else if (["event", "party", "club", "experience", "rooftop",
         "tourist_attraction"]).any (fun w => tagsLower.contains w) then "go_out"
    else if (["park", "nature", "hiking", "beach", "outdoor",
         "natural_feature", "campground"]).any (fun w => tagsLower.contains w) then "nature"
    else if (["museum", "gallery", "art", "culture", "exhibition",
         "art_gallery", "library"]).any (fun w => tagsLower.contains w) then "culture"
    else if (["restaurant", "dining", "food", "cuisine", "noodles", "dim sum",
         "meal_delivery", "meal_takeaway"]).any (fun w => tagsLower.contains w) then "eat"
    else "eat"

/-- Spec-style restatement of the category derivation: a flat bucket list
checked in a fixed precedence order, first match wins, default eat. The
order here is the one the code actually uses (cafes before bars), which is
what the corrected claim C3 states. -/
def categoryBucketsInOrder : List (String × List String) :=
  [("cafes", ["cafe", "coffee", "espresso", "latte", "cappuccino",
      "coffee_shop"]),
   ("bars", ["bar", "cocktail", "wine", "beer", "pub", "nightlife",
      "night_club", "liquor_store"]),
   ("shops", ["shop", "store", "boutique", "retail", "shopping",
      "clothing_store", "shopping_mall", "book_store", "jewelry_store"]),
   ("leisure", ["cinema", "theater", "entertainment", "activity", "fun",
      "movie_theater", "amusement_park", "bowling_alley", "casino",
      "stadium"]),
   ("go_out", ["event", "party", "club", "experience", "rooftop",
      "tourist_attraction"]),
   ("nature", ["park", "nature", "hiking", "beach", "outdoor",
      "natural_feature", "campground"]),
   ("culture", ["museum", "gallery", "art", "culture", "exhibition",
      "art_gallery", "library"]),
   ("eat", ["restaurant", "dining", "food", "cuisine", "noodles", "dim sum",
      "meal_delivery", "meal_takeaway"])]

/-- First bucket of the precedence list whose keyword set intersects the
lowercased tag list; eat when none matches. -/
def firstMatchingBucket (tagsLower : List String) :
    List (String × List String) → String
  | [] => "eat"
  | (c, kws) :: rest =>
    if kws.any (fun w => tagsLower.contains w) then c
    else firstMatchingBucket tagsLower rest

/-- Spec-style category derivation: empty tag list defaults to eat, otherwise
the first matching bucket of the precedence list wins. -/
def categoryByPrecedence (tags : List String) : String :=
  if tags.isEmpty then "eat"
  else firstMatchingBucket (tags.map strToLower) categoryBucketsInOrder

/-- The type-to-category dictionary literal of _infer_category_from_types in
src/backend/google_places_helper.py, in source order. The key night_club
appears twice in the Python dict literal; lookup below takes the last
occurrence, matching Python dict construction where a later duplicate key
overwrites an earlier one. -/
def typeMappingEntries : List (String × String × String) :=
  [("bar", "Bar", "🍸"),
   ("night_club", "Bar", "🍸"),
   ("liquor_store", "Bar", "🍸"),
   ("cafe", "Cafe", "☕"),
   ("coffee", "Cafe", "☕"),
   ("restaurant", "Restaurant", "🍽️"),
   ("meal_delivery", "Restaurant", "🍽️"),
   ("meal_takeaway", "Restaurant", "🍽️"),
   ("food", "Restaurant", "🍽️"),
   ("tourist_attraction", "Activity", "🎯"),
   ("museum", "Activity", "🎯"),
   ("art_gallery", "Activity", "🎯"),
   ("amusement_park", "Activity", "🎯"),
   ("aquarium", "Activity", "🎯"),
   ("bowling_alley", "Activity", "🎯"),
   ("casino", "Activity", "🎯"),
   ("movie_theater", "Activity", "🎯"),
   ("night_club", "Activity", "🎯"),
   ("park", "Activity", "🎯"),
   ("spa", "Activity", "🎯"),
   ("stadium", "Activity", "🎯"),
   ("zoo", "Activity", "🎯"),
   ("shopping_mall", "Shopping", "🛍️"),
   ("store", "Shopping", "🛍️"),
   ("clothing_store", "Shopping", "🛍️")]

/-- Lookup in the dictionary built from typeMappingEntries: the last binding
for a key wins, as in Python dict literals with duplicate keys. -/
def typeMappingLookup (k : String) : Option (String × String) :=
  (typeMappingEntries.reverse.find? (fun e => e.1 == k)).map (fun e => e.2)

/-- The for-loop of _infer_category_from_types: return the mapping of the
first type found in the dictionary; fall back to Place with a pin glyph. -/
def lookupFirstType : List String → String × String
  | [] => ("Place", "📍")
  | t :: rest =>
    match typeMappingLookup t with
    | some ce => ce
    | none => lookupFirstType rest

/-- _infer_category_from_types from src/backend/google_places_helper.py:
optional caller hint checked by substring first, then the first Google type
present in the mapping wins. -/
def infer_category_from_types (types : List String) (hint : Option String) :
    String × String :=
  match hint with
  | some h =>
    let hl := strToLower h
    if strContainsSub hl "bar" || strContainsSub hl "drink" then ("Bar", "🍸")
    else if strContainsSub hl "cafe" || strContainsSub hl "coffee" then
      ("Cafe", "☕")
    else if strContainsSub hl "restaurant" || strContainsSub hl "food" then
      ("Restaurant", "🍽️")
    else if strContainsSub hl "activity" || strContainsSub hl "attraction" then
      ("Activity", "🎯")
    else lookupFirstType types
  | none => lookupFirstType types

example : get_category_from_tags ["restaurant", "bar"] = "bars" := by decide

example : get_category_from_tags ["bar", "cafe"] = "cafes" := by decide

example : infer_category_from_types ["restaurant", "bar"] none =
    ("Restaurant", "🍽️") := by decide

example : infer_category_from_types ["night_club"] none =
    ("Activity", "🎯") := by decide

/-- The hk_districts gazetteer of extract_district_from_address in
src/backend/google_places.py. -/
def hk_districts : List String :=
  ["Central", "Admiralty", "Wan Chai", "Causeway Bay",
   "Tsim Sha Tsui", "TST", "Mong Kok", "Jordan", "Yau Ma Tei",
   "Sham Shui Po", "Sai Ying Pun", "Sheung Wan", "Kennedy Town",
   "Quarry Bay", "Tai Koo", "North Point", "Fortress Hill",
   "Tin Hau", "Tai Hang", "Happy Valley", "Mid-Levels",
   "Stanley", "Repulse Bay", "Aberdeen", "Wong Chuk Hang",
   "Kowloon Tong", "Hung Hom", "To Kwa Wan", "Kowloon City",
   "Kwun Tong", "Ngau Tau Kok", "Lam Tin", "Yau Tong",
   "Sha Tin", "Tai Po", "Fanling", "Sheung Shui",
   "Tuen Mun", "Yuen Long", "Tsuen Wan", "Kwai Chung",
   "Tsing Yi", "Tung Chung", "Discovery Bay", "Sai Kung"]

/-- extract_district_from_address from src/backend/google_places.py: first
gazetteer entry that occurs (case-insensitively) in the address. -/
def extract_district_from_address (address : String) : Option String :=
  let addressLower := strToLower address
  hk_districts.find? (fun d => strContainsSub addressLower (strToLower d))

/-- The districts gazetteer of _extract_district_from_address in
src/backend/google_places_helper.py (a different list from hk_districts). -/
def helper_districts : List String :=
  ["Central", "Sheung Wan", "Wan Chai", "Causeway Bay",
   "Tsim Sha Tsui", "Mong Kok", "Yau Ma Tei", "Jordan",
   "Sai Ying Pun", "Kennedy Town", "Admiralty", "Quarry Bay",
   "Tai Hang", "Happy Valley", "Tin Hau", "Fortress Hill",
   "North Point", "Sai Wan Ho", "Shau Kei Wan", "Chai Wan",
   "Stanley", "Repulse Bay", "Aberdeen", "Ap Lei Chau",
   "Hung Hom", "To Kwa Wan", "Kowloon City", "Kowloon Tong",
   "Diamond Hill", "Wong Tai Sin", "Kwun Tong", "Lam Tin",
   "Sham Shui Po", "Cheung Sha Wan", "Lai Chi Kok", "Mei Foo",
   "Tsuen Wan", "Kwai Chung", "Tsing Yi", "Tuen Mun",
   "Yuen Long", "Tin Shui Wai", "Sheung Shui", "Fanling",
   "Tai Po", "Sha Tin", "Ma On Shan", "Sai Kung", "Tseung Kwan O"]

/-- _extract_district_from_address from src/backend/google_places_helper.py:
first gazetteer entry occurring (case-sensitively) in the address. -/
def helper_extract_district (address : String) : Option String :=
  helper_districts.find? (fun d => strContainsSub address d)

/-!
Model of src/backend/google_places.py. The two HTTP calls (text search and
place details) are modelled by their outcomes: search_place becomes an
Option SearchBasic argument (none when the key is unset, the request fails,
the API status is not OK, or the result list is empty — all paths on which
search_place returns None) and get_place_details becomes an oracle
String → Option DetailsData with none on the corresponding failure paths.
-/

/-- The dict returned by search_place in src/backend/google_places.py (top
text-search result, basic fields only). -/
structure SearchBasic where
  place_id : Option String := none
  name : Option String := none
  address : Option String := none
  lat : Option ℚ := none
  lng : Option ℚ := none
  rating : Option ℚ := none
  photo_reference : Option String := none
deriving Repr, DecidableEq

/-- The opening_hours sub-dict extracted by get_place_details in
src/backend/google_places.py. -/
structure OpeningHoursData where
  open_now : Option Bool := none
  weekday_text : List String := []
deriving Repr, DecidableEq

/-- The dict returned by get_place_details in src/backend/google_places.py. -/
structure DetailsData where
  place_id : String
  name : Option String := none
  address : Option String := none
  lat : Option ℚ := none
  lng : Option ℚ := none
  rating : Option ℚ := none
  price_level : Option Int := none
  phone : Option String := none
  website : Option String := none
  opening_hours : Option OpeningHoursData := none
  photo_reference : Option String := none
  types : List String := []
deriving Repr, DecidableEq

/-- get_photo_url from src/backend/google_places.py: None when the API key or
the photo reference is missing (falsy), otherwise the photo URL. -/
def get_photo_url (key : String) (photo_reference : String)
    (maxWidth : Nat := 800) : Option String :=
  if key == "" || photo_reference == "" then none
  else some ("https://maps.googleapis.com/maps/api/place/photo?maxwidth="
    ++ toString maxWidth ++ "&photo_reference=" ++ photo_reference
    ++ "&key=" ++ key)

/-- Outcome of enrich_place_data: NotFound (the function returns None), the
basic search result only (the fallback paths), or the full details record
with its derived photo URL. -/
inductive EnrichResult where
  | notFound
  | basic (s : SearchBasic)
  | full (d : DetailsData) (photo_url : Option String)
deriving Repr, DecidableEq

/-- enrich_place_data from src/backend/google_places.py: search, then details,
then photo URL. Returns None only when the search fails; a missing place_id
or a failed details call falls back to the basic search result. -/
def enrich_place_data (key : String) (search : Option SearchBasic)
    (details : String → Option DetailsData) : EnrichResult :=
  match search with
  | none => .notFound
  | some sr =>
    match sr.place_id with
    | none => .basic sr
    | some pid =>
      match details pid with
      | none => .basic sr
      | some d =>
        .full d (match d.photo_reference with
                 | some r => get_photo_url key r
                 | none => none)

/-!
Model of src/backend/google_places_helper.py. _find_place_by_text and
_get_place_details are HTTP calls, modelled by oracles; the raw details
payload keeps the fields that _format_place_data and the backfill scripts
read. Missing keys and falsy defaults of the Python .get calls become the
field defaults below; geometry.location is collapsed to its lat and lng with
the source default 0.0.
-/

/-- One entry of the photos list in a raw place-details payload. -/
structure RawPhoto where
  photo_reference : Option String := none
deriving Repr, DecidableEq

/-- The opening_hours sub-dict of a raw place-details payload; none at the
use sites models a missing or empty (falsy) dict. -/
structure RawOpeningHours where
  open_now : Bool := false
  weekday_text : List String := []
deriving Repr, DecidableEq

/-- Raw place-details payload (the result dict of _get_place_details in
src/backend/google_places_helper.py). -/
structure RawPlaceDetails where
  place_id : Option String := none
  name : Option String := none
  formatted_address : String := ""
  lat : ℚ := 0
  lng : ℚ := 0
  opening_hours : Option RawOpeningHours := none
  rating : Option ℚ := none
  user_ratings_total : Option Int := none
  photos : List RawPhoto := []
  types : List String := []
deriving Repr, DecidableEq

/-- A place candidate as received by the helper module (the candidate dict of
fetch_place_details_from_google / PlaceCandidateRequest). -/
structure Candidate where
  name : String
  district : Option String := none
  city : Option String := some "Hong Kong"
  category_hint : Option String := none
  lat : Option ℚ := none
  lng : Option ℚ := none
  caption : Option String := none
  author : Option String := none
  source_type : Option String := none
  source_url : Option String := none
  image : Option String := none
deriving Repr, DecidableEq

/-- The enriched dict built by _format_place_data in
src/backend/google_places_helper.py. -/
structure FormattedPlace where
  place_id : Option String
  name : Option String
  lat : ℚ
  lng : ℚ
  address : String
  district : String
  opening_hours : Option (List String)
  is_open_now : Nat
  rating : Option ℚ
  user_ratings_total : Option Int
  photo_url : Option String
  types : List String
  category : String
  category_emoji : String
  caption : Option String
  author : Option String
  source_type : Option String
  source_url : Option String
  image : Option String
deriving Repr, DecidableEq

/-- _format_place_data from src/backend/google_places_helper.py: merge a raw
details payload with the candidate context into the enriched place dict. -/
def format_place_data (key : String) (det : RawPlaceDetails)
    (candidate : Candidate) : FormattedPlace :=
  let district :=
    match helper_extract_district det.formatted_address with
    | some d => d
    | none => candidate.district.getD ""
  let opening_hours_json :=
    match det.opening_hours with
    | some oh => if oh.weekday_text.isEmpty then none else some oh.weekday_text
    | none => none
  let is_open_now :=
    match det.opening_hours with
    | some oh => if oh.open_now then 1 else 0
    | none => 0
  let photo_url :=
    match det.photos.head? with
    | some ph =>
      match ph.photo_reference with
      | some r =>
        if r == "" then none
        else some ("https://maps.googleapis.com/maps/api/place/photo?maxwidth=800&photoreference="
          ++ r ++ "&key=" ++ key)
      | none => none
    | none => none
  let ce := infer_category_from_types det.types candidate.category_hint
  { place_id := det.place_id
    name := det.name
    lat := det.lat
    lng := det.lng
    address := det.formatted_address
    district := district
    opening_hours := opening_hours_json
    is_open_now := is_open_now
    rating := det.rating
    user_ratings_total := det.user_ratings_total
    photo_url := photo_url
    types := det.types
    category := ce.1
    category_emoji := ce.2
    caption := candidate.caption
    author := candidate.author
    source_type := candidate.source_type
    source_url := candidate.source_url
    image := candidate.image }

/-- fetch_place_details_from_google from src/backend/google_places_helper.py:
None when the API key is unset, the text search finds nothing, or the details
call fails; otherwise the formatted payload. -/
def fetch_place_details_from_google (apiKey : Option String)
    (find : Candidate → Option String)
    (details : String → Option RawPlaceDetails)
    (candidate : Candidate) : Option FormattedPlace :=
  match apiKey with
  | none => none
  | some key =>
    match find candidate with
    | none => none
    | some pid =>
      match details pid with
      | none => none
      | some det => some (format_place_data key det candidate)

/-!
Model of the persistence layer and the import endpoints of
src/backend/main.py. The places table is a List Place in insertion order
together with the autoincrement counter.
-/

/-- The places table plus its autoincrement primary-key counter. -/
structure DB where
  places : List Place
  nextId : Nat
deriving Repr, DecidableEq

/-- Python truthiness of an optional string (None and the empty string are
falsy). -/
def truthyStr (x : Option String) : Bool :=
  match x with
  | some s => !(s == "")
  | none => false

/-- The google_data dict view consumed by import_url, pin_place and
add_place_by_id in src/backend/main.py (keys read via .get; absent keys are
none). name, lat and lng feed NOT NULL columns and are kept total. -/
structure GoogleData where
  place_id : Option String := none
  name : String
  address : Option String := none
  lat : ℚ
  lng : ℚ
  photo_url : Option String := none
  rating : Option ℚ := none
  price_level : Option Int := none
  opening_hours : Option (List String) := none
  phone : Option String := none
  website : Option String := none
deriving Repr, DecidableEq

/-- The ai_data dict returned by process_instagram_url, as read by
import_url in src/backend/main.py. -/
structure AIData where
  name : Option String := none
  district : Option String := none
  tags : List String := []
  category : Option String := none
  source_platform : Option String := none
  source_caption : Option String := none
deriving Repr, DecidableEq

/-- The HTTP error outcomes of the import endpoints (400 when extraction
fails, 404 when enrichment finds nothing). -/
inductive ImportErr where
  | extraction_failed
  | place_not_found
deriving Repr, DecidableEq

/-- Python x or y on an optional category string (None and the empty string
fall through to the computed category). -/
def categoryOrFromTags (c : Option String) (tags : List String) : String :=
  match c with
  | some c => if c == "" then get_category_from_tags tags else c
  | none => get_category_from_tags tags

/-- The district fix-up shared by import_url and pin_place: when the incoming
district is falsy and the enriched address is truthy, re-derive the district
from the address. -/
def districtOrFromAddress (district : Option String) (address : Option String) :
    Option String :=
  if !(truthyStr district) && truthyStr address then
    extract_district_from_address (address.getD "")
  else district

/-- import_url from src/backend/main.py: AI extraction, enrichment, category
and district derivation, then the per-user dedup lookup on
(user_id, google_place_id); an existing row is returned unchanged, otherwise
a new row is inserted. The two external steps are modelled by their outcomes
ai and g. -/
def import_url (u : Nat) (url : String) (ai : Option AIData)
    (g : Option GoogleData) (now : Int) (db : DB) :
    Except ImportErr (Place × DB) :=
  match ai with
  | none => .error .extraction_failed
  | some ai =>
    match g with
    | none => .error .place_not_found
    | some g =>
      let tags := ai.tags
      let category := categoryOrFromTags ai.category tags
      let emoji := get_emoji_for_category category
      let district := districtOrFromAddress ai.district g.address
      match db.places.find?
          (fun p => p.user_id == u && p.google_place_id == g.place_id) with
      | some p => .ok (p, db)
      | none =>
        let p : Place :=
          { id := db.nextId, user_id := u, name := g.name,
            address := g.address, district := district,
            lat := g.lat, lng := g.lng, google_place_id := g.place_id,
            photo_url := g.photo_url, rating := g.rating,
            price_level := g.price_level, opening_hours := g.opening_hours,
            phone := g.phone, website := g.website,
            category := category, emoji := emoji,
            source_platform := ai.source_platform, source_url := some url,
            source_caption := ai.source_caption, tags := some tags,
            created_at := now, updated_at := now }
        .ok (p, { places := db.places ++ [p], nextId := db.nextId + 1 })

/-- pin_place from src/backend/main.py: enrichment, category and district
derivation, then an unconditional insert — the source performs no lookup of
an existing row for (user_id, google_place_id) before saving. -/
def pin_place (u : Nat) (_reqName : String) (reqDistrict : Option String)
    (reqCategory : Option String) (reqTags : Option (List String))
    (g : Option GoogleData) (now : Int) (db : DB) :
    Except ImportErr (Place × DB) :=
  match g with
  | none => .error .place_not_found
  | some g =>
    let category := categoryOrFromTags reqCategory (reqTags.getD [])
    let emoji := get_emoji_for_category category
    let district := districtOrFromAddress reqDistrict g.address
    let p : Place :=
      { id := db.nextId, user_id := u, name := g.name,
        address := g.address, district := district,
        lat := g.lat, lng := g.lng, google_place_id := g.place_id,
        photo_url := g.photo_url, rating := g.rating,
        price_level := g.price_level, opening_hours := g.opening_hours,
        phone := g.phone, website := g.website,
        category := category, emoji := emoji,
        tags := some (reqTags.getD []),
        created_at := now, updated_at := now }
    .ok (p, { places := db.places ++ [p], nextId := db.nextId + 1 })

/-- get_place from src/backend/main.py: the row with the given id owned by
the requesting user, none (HTTP 404) otherwise. -/
def get_place (u : Nat) (place_id : Nat) (store : List Place) : Option Place :=
  store.find? (fun p => p.id == place_id && p.user_id == u)

/-- An UpdatePlaceRequest body (all fields optional). -/
structure UpdateReq where
  is_visited : Option Bool := none
  is_favorite : Option Bool := none
  user_notes : Option String := none
deriving Repr, DecidableEq

/-- The field updates applied by update_place, plus the updated_at bump of
the ORM onupdate hook. -/
def applyUpdate (req : UpdateReq) (now : Int) (p : Place) : Place :=
  let p := match req.is_visited with
    | some v => { p with is_visited := v }
    | none => p
  let p := match req.is_favorite with
    | some v => { p with is_favorite := v }
    | none => p
  let p := match req.user_notes with
    | some v => { p with user_notes := some v }
    | none => p
  { p with updated_at := now }

/-- update_place from src/backend/main.py: look up the row by
(id, owning user); on a miss return none (HTTP 404) leaving the store
unchanged, otherwise apply the requested field updates to that row. -/
def update_place (u : Nat) (place_id : Nat) (req : UpdateReq) (now : Int)
    (store : List Place) : Option Place × List Place :=
  match store.find? (fun p => p.id == place_id && p.user_id == u) with
  | none => (none, store)
  | some p =>
    let p2 := applyUpdate req now p
    (some p2,
     store.map (fun q => if q.id == place_id && q.user_id == u then p2 else q))

/-- delete_place from src/backend/main.py: look up the row by
(id, owning user); on a miss return false (HTTP 404) leaving the store
unchanged, otherwise hard-delete that row (the ORM deletes by primary key). -/
def delete_place (u : Nat) (place_id : Nat) (store : List Place) :
    Bool × List Place :=
  match store.find? (fun p => p.id == place_id && p.user_id == u) with
  | none => (false, store)
  | some _ => (true, store.filter (fun q => !(q.id == place_id)))

/-- The uniqueness constraint declared on the google_place_id column in
src/backend/models.py (unique=True): all non-null google_place_id values are
pairwise distinct across the whole table, regardless of owner (SQL UNIQUE
admits repeated NULLs). -/
def uniqueGoogleIdOk : List Place → Bool
  | [] => true
  | p :: rest =>
    (p.google_place_id.isNone ||
      rest.all (fun q => !(q.google_place_id == p.google_place_id))) &&
    uniqueGoogleIdOk rest

/-- Modelled from the spec: the uniqueness constraint section 6 of the spec
declares for the Place store — uniqueness of the pair
(owning_user_id, external_id) where external_id is non-null. This constraint
is absent from the source schema, which instead declares google_place_id
globally unique; the claim C2 compares the two. -/
def specPairUniqueOk : List Place → Bool
  | [] => true
  | p :: rest =>
    (p.google_place_id.isNone ||
      rest.all (fun q =>
        !(q.user_id == p.user_id && q.google_place_id == p.google_place_id))) &&
    specPairUniqueOk rest

/-!
Model of the aggregation views of src/backend/main.py. SQL ORDER BY
created_at DESC and the Python stable sort by trending score become stable
insertion sorts.
-/

/-- Stable insert for the descending created_at order: the new element goes
before the first strictly older row, so rows already in the list keep their
relative order and equal timestamps preserve insertion order. -/
def insertCreatedDesc (x : Place) : List Place → List Place
  | [] => [x]
  | y :: ys =>
    if x.created_at < y.created_at then y :: insertCreatedDesc x ys
    else x :: y :: ys

/-- Stable sort of rows by created_at descending (ORDER BY created_at DESC). -/
def sortCreatedDesc : List Place → List Place
  | [] => []
  | x :: xs => insertCreatedDesc x (sortCreatedDesc xs)

/-- One entry of the trending_data list built by get_trending. The score is
stored doubled (in half-point units) so that it stays in the naturals: the
float score of the source is score2 / 2. Doubling is exact for this formula
and preserves comparisons and zero-ness, which is all the pipeline uses. -/
structure TrendingEntry where
  place : Place
  score2 : Nat
  saves_7d : Nat
  saves_30d : Nat
deriving Repr, DecidableEq

/-- Count of rows sharing a google_place_id with created_at on or after the
cutoff — the per-window save count of get_trending (an equality comparison
with a NULL google_place_id matches the NULL rows, as the SQLAlchemy filter
does). -/
def savesWithin (store : List Place) (gid : Option String) (cutoff : Int) :
    Nat :=
  (store.filter (fun q =>
    q.google_place_id == gid && decide (cutoff ≤ q.created_at))).length

/-- The velocity score of get_trending — saves_7d times 2 plus saves_30d
times 0.5 — stored doubled: 2 times the source score, so s7 times 4 plus
s30. -/
def trendingScore2 (s7 s30 : Nat) : Nat := s7 * 4 + s30

/-- The per-row body of the trending_data loop: the save counts and score of
one row; none when the score is zero (the row is dropped). -/
def trendingEntryOf (now : Int) (store : List Place) (p : Place) :
    Option TrendingEntry :=
  let s7 := savesWithin store p.google_place_id (now - 7)
  let s30 := savesWithin store p.google_place_id (now - 30)
  let score2 := trendingScore2 s7 s30
  if 0 < score2 then
    some { place := p, score2 := score2, saves_7d := s7, saves_30d := s30 }
  else none

/-- The trending_data list of get_trending: every row of the table (in
created_at-descending order) is scored individually by the save counts of
its google_place_id; rows with score zero are dropped. -/
def trendingData (now : Int) (store : List Place) : List TrendingEntry :=
  (sortCreatedDesc store).filterMap (trendingEntryOf now store)

/-- The set of google_place_id values saved by a user (user_saved_place_ids
in the source; NULL ids are included, as in the source set). -/
def userSavedGids (u : Nat) (store : List Place) : List (Option String) :=
  (store.filter (fun p => p.user_id == u)).map (fun p => p.google_place_id)

/-- Stable insert for the descending score order: the new element goes after
every strictly higher score and before equal scores met later, which is
exactly the Python stable sort with reverse=True. -/
def insertScoreDesc (x : TrendingEntry) :
    List TrendingEntry → List TrendingEntry
  | [] => [x]
  | y :: ys =>
    if x.score2 < y.score2 then y :: insertScoreDesc x ys
    else x :: y :: ys

/-- Stable sort of trending entries by score descending. -/
def sortScoreDesc : List TrendingEntry → List TrendingEntry
  | [] => []
  | x :: xs => insertScoreDesc x (sortScoreDesc xs)

/-- get_trending from src/backend/main.py: score every row, drop zero
scores, exclude the requesting user saved venues only when some scored row
belongs to another user, sort by score descending (stable over the
created_at-descending order) and take the top 10. -/
def get_trending (u : Nat) (now : Int) (store : List Place) :
    List TrendingEntry :=
  let td := trendingData now store
  let saved := userSavedGids u store
  let others := td.filter (fun it => !(it.place.user_id == u))
  let filtered :=
    if others.isEmpty then td
    else td.filter (fun it => !(saved.contains it.place.google_place_id))
  (sortScoreDesc filtered).take 10

/-- The accumulation loop of get_picked_for_you: walk the other-user rows in
order, skip venues the requester saved or a google_place_id already taken,
and stop once 10 recommendations are collected. -/
def pickLoop (saved : List (Option String)) :
    List Place → List (Option String) → List Place → List Place
  | [], _, acc => acc
  | p :: rest, seen, acc =>
    if saved.contains p.google_place_id || seen.contains p.google_place_id then
      pickLoop saved rest seen acc
    else
      let acc2 := acc ++ [p]
      if 10 ≤ acc2.length then acc2
      else pickLoop saved rest (seen ++ [p.google_place_id]) acc2

/-- get_picked_for_you from src/backend/main.py: other-user rows the
requester has not saved, most recent first, deduplicated by google_place_id,
capped at 10; when no other user has any row at all, the requester own most
recent 10 rows instead. -/
def get_picked_for_you (u : Nat) (store : List Place) : List Place :=
  let saved := userSavedGids u store
  let others := sortCreatedDesc (store.filter (fun p => !(p.user_id == u)))
  if others.isEmpty then
    (sortCreatedDesc (store.filter (fun p => p.user_id == u))).take 10
  else
    pickLoop saved others [] []

/-- The fixed tag keyword set of get_support_local. -/
def supportLocalKeywords : List String :=
  ["local", "independent", "family", "small", "neighborhood"]

/-- get_support_local from src/backend/main.py: among the 50 most recent
rows, keep those whose tag list intersects the keyword set, excluding the
requester saved venues only when another user owns one of those 50 rows;
capped at 10. -/
def get_support_local (u : Nat) (store : List Place) : List Place :=
  let places := (sortCreatedDesc store).take 50
  let saved := userSavedGids u store
  let othersExist := places.any (fun p => !(p.user_id == u))
  (places.filter (fun p =>
    (!othersExist || !(saved.contains p.google_place_id)) &&
    (match p.tags with
     | none => false
     | some ts =>
       !ts.isEmpty &&
         supportLocalKeywords.any (fun w => (ts.map strToLower).contains w)))).take 10

/-!
Model of the two backfill paths: the standalone script
src/backend/backfill_place_data.py (per-place step of backfill_places) and
the admin endpoint run_backfill of src/backend/main.py. Both fetch details
through _get_place_details, modelled by an oracle.
-/

/-- The photo URL written by the backfill script. -/
def backfillPhotoUrl (key r : String) : String :=
  "https://maps.googleapis.com/maps/api/place/photo?maxwidth=800&photoreference="
    ++ r ++ "&key=" ++ key

/-- The per-place body of backfill_places in
src/backend/backfill_place_data.py: skip rows with both fields present or
without a google_place_id; on a successful fetch, fill opening_hours and
photo_url only where currently missing. -/
def backfill_place (details : String → Option RawPlaceDetails) (key : String)
    (p : Place) : Place :=
  let needs_update := p.opening_hours.isNone || p.photo_url.isNone
  if !needs_update then p
  else
    match p.google_place_id with
    | none => p
    | some gid =>
      match details gid with
      | none => p
      | some det =>
        let p1 :=
          if p.opening_hours.isNone then
            match det.opening_hours with
            | some oh =>
              if oh.weekday_text.isEmpty then p
              else { p with opening_hours := some oh.weekday_text }
            | none => p
          else p
        if p.photo_url.isNone then
          match det.photos.head? with
          | some ph =>
            match ph.photo_reference with
            | some r =>
              if r == "" then p1
              else { p1 with photo_url := some (backfillPhotoUrl key r) }
            | none => p1
          | none => p1
        else p1

/-- backfill_places applied to the whole table. -/
def backfill_places (details : String → Option RawPlaceDetails) (key : String)
    (store : List Place) : List Place :=
  store.map (backfill_place details key)

/-- The per-place body of run_backfill in src/backend/main.py: only a
missing opening_hours marks a row as needing update, and only opening_hours
is ever written — photo_url is not considered by this endpoint. -/
def run_backfill_place (details : String → Option RawPlaceDetails)
    (p : Place) : Place :=
  if p.opening_hours.isSome then p
  else
    match p.google_place_id with
    | none => p
    | some gid =>
      match details gid with
      | none => p
      | some det =>
        match det.opening_hours with
        | some oh =>
          if oh.weekday_text.isEmpty then p
          else { p with opening_hours := some oh.weekday_text }
        | none => p

/-- run_backfill applied to the whole table. -/
def run_backfill (details : String → Option RawPlaceDetails)
    (store : List Place) : List Place :=
  store.map (run_backfill_place details)

/-- The order produced by the stable score sort: strictly larger score
first, ties resolved by the more recent save (descending created_at). -/
def trendRel (a b : TrendingEntry) : Prop :=
  b.score2 < a.score2 ∨
    (a.score2 = b.score2 ∧ b.place.created_at ≤ a.place.created_at)

/-- Projection of a successful import result to the returned place. -/
def importedPlace (r : Except ImportErr (Place × DB)) : Option Place :=
  match r with
  | .ok (p, _) => some p
  | .error _ => none

/-- Projection of an import result to the resulting database (unchanged on
error). -/
def importedDB (d : DB) (r : Except ImportErr (Place × DB)) : DB :=
  match r with
  | .ok (_, db) => db
  | .error _ => d

/-!
Concrete fixtures used by the claim theorems below.
-/

/-- A minimal place row for concrete scenarios. -/
def mkPlace (i u : Nat) (gid : Option String) (created : Int) : Place :=
  { id := i, user_id := u, name := "P", lat := 22, lng := 114,
    google_place_id := gid, category := "eat", emoji := "🍽️",
    created_at := created, updated_at := created }

/-- Enrichment outcome for the C1 import scenario. -/
def c1Google : GoogleData :=
  { place_id := some "g1", name := "Bar Leone",
    address := some "11-15 Bridges St, Central, Hong Kong",
    lat := 22, lng := 114 }

/-- AI extraction outcome for the C1 import scenario. -/
def c1AI : AIData :=
  { name := some "Bar Leone", district := some "Central", tags := ["bar"] }

/-- Empty database at the start of the C1 scenario. -/
def c1db0 : DB := { places := [], nextId := 1 }

/-- First import of the candidate over the URL path. -/
def c1r1 : Except ImportErr (Place × DB) :=
  import_url 1 "url" (some c1AI) (some c1Google) 100 c1db0

/-- Database after the first URL import. -/
def c1db1 : DB := importedDB c1db0 c1r1

/-- The user then edits their state on the imported row. -/
def c1db2 : DB :=
  { places :=
      (update_place 1 1
        { is_visited := some true, is_favorite := some true,
          user_notes := some "note" } 101 c1db1.places).2,
    nextId := c1db1.nextId }

/-- Second import of the identical candidate over the URL path. -/
def c1r2 : Except ImportErr (Place × DB) :=
  import_url 1 "url" (some c1AI) (some c1Google) 102 c1db2

/-- First manual pin of the same candidate. -/
def c1s1 : Except ImportErr (Place × DB) :=
  pin_place 1 "Bar Leone" (some "Central") none none (some c1Google) 100 c1db0

/-- Database after the first manual pin. -/
def c1dbp1 : DB := importedDB c1db0 c1s1

/-- Second, identical manual pin. -/
def c1s2 : Except ImportErr (Place × DB) :=
  pin_place 1 "Bar Leone" (some "Central") none none (some c1Google) 101 c1dbp1

/-- Database after the second manual pin. -/
def c1dbp2 : DB := importedDB c1db0 c1s2

/-- User A's pinned copy of venue g1 (claim C2). -/
def placeUserA : Place := mkPlace 1 1 (some "g1") 0

/-- User B's own pinned copy of the same venue g1 (claim C2). -/
def placeUserB : Place := mkPlace 2 2 (some "g1") 0

/-- Search outcome for the C6 counterexample. -/
def c6Search : SearchBasic :=
  { place_id := some "g1", name := some "Bar Leone" }

/-- Store for the C4 counterexample: venue g1 saved recently by two other
users; the requester (user 1) has nothing. Timestamps are days; now is 100. -/
def c4store : List Place :=
  [mkPlace 1 2 (some "g1") 99, mkPlace 2 3 (some "g1") 98]

/-- Store for the C5 counterexample: the requester (user 1) saved venue g1
yesterday; user 2 saved venue g2 forty days ago (outside both windows, so
its row scores zero). -/
def c5store : List Place :=
  [mkPlace 1 1 (some "g1") 99, mkPlace 2 2 (some "g2") 60]

/-- Store for the C5 amended scenario of the spec: venue v saved by the
requester (user 1) five days ago and by user 2 twenty days ago. -/
def c5specStore : List Place :=
  [mkPlace 1 1 (some "v") 95, mkPlace 2 2 (some "v") 80]

/-- Details payload offered by the provider in the C8 scenario: both opening
hours and a photo are available. -/
def c8Det : RawPlaceDetails :=
  { opening_hours := some { open_now := true, weekday_text := ["Monday: 5:00 PM"] },
    photos := [{ photo_reference := some "ref1" }] }

/-- Details oracle returning c8Det for every id. -/
def c8details : String → Option RawPlaceDetails := fun _ => some c8Det

/-- A place with opening hours present but photo_url missing (claim C8). -/
def c8place : Place :=
  { mkPlace 1 1 (some "g1") 0 with opening_hours := some ["Monday: 9:00 AM"] }

/-- A place missing both opening hours and photo (claim C8 witness). -/
def c8placeBoth : Place := mkPlace 2 1 (some "g2") 0

/-- The top trending entry of the C4 scenario: user 2's copy of venue g1,
saved 1 day before now = 100; both rows of g1 fall in both windows, so
saves_7d = saves_30d = 2 and the doubled score is 10 (float score 5). -/
def c4e1 : TrendingEntry :=
  { place := mkPlace 1 2 (some "g1") 99, score2 := 10,
    saves_7d := 2, saves_30d := 2 }

/-- A store owned by user 2 only, with one row (claim C9 witness). -/
def c9store : List Place := [mkPlace 7 2 (some "g1") 50]

/-- Store for the C7 witness: user 2 owns two copies of venue g1 and one of
venue g2; the requester (user 1) pinned venue g2. -/
def c7store : List Place :=
  [mkPlace 1 2 (some "g1") 90, mkPlace 2 2 (some "g1") 80,
   mkPlace 3 2 (some "g2") 70, mkPlace 4 1 (some "g2") 60]

/-!
Lemmas about the stable sorts and the aggregation pipelines.
-/

theorem mem_insertCreatedDesc {x a : Place} {l : List Place} :
    a ∈ insertCreatedDesc x l ↔ a = x ∨ a ∈ l := by
  induction l with
  | nil => simp [insertCreatedDesc]
  | cons y ys ih =>
    simp only [insertCreatedDesc]
    split
    · simp only [List.mem_cons, ih]
      tauto
    · simp only [List.mem_cons]

theorem mem_sortCreatedDesc {a : Place} {l : List Place} :
    a ∈ sortCreatedDesc l ↔ a ∈ l := by
  induction l with
  | nil => simp [sortCreatedDesc]
  | cons y ys ih =>
    simp only [sortCreatedDesc, mem_insertCreatedDesc, ih, List.mem_cons]

theorem length_insertCreatedDesc (x : Place) (l : List Place) :
    (insertCreatedDesc x l).length = l.length + 1 := by
  induction l with
  | nil => rfl
  | cons y ys ih =>
    simp only [insertCreatedDesc]
    split
    · simp [ih]
    · simp

theorem length_sortCreatedDesc (l : List Place) :
    (sortCreatedDesc l).length = l.length := by
  induction l with
  | nil => rfl
  | cons y ys ih => simp [sortCreatedDesc, length_insertCreatedDesc, ih]

theorem sortCreatedDesc_eq_nil_iff {l : List Place} :
    sortCreatedDesc l = [] ↔ l = [] := by
  constructor
  · intro h
    have := length_sortCreatedDesc l
    rw [h] at this
    exact List.length_eq_zero.1 this.symm
  · intro h
    subst h
    rfl

theorem pairwise_insertCreatedDesc {x : Place} {l : List Place}
    (h : l.Pairwise (fun a b => b.created_at ≤ a.created_at)) :
    (insertCreatedDesc x l).Pairwise (fun a b => b.created_at ≤ a.created_at) := by
  induction l with
  | nil => simp [insertCreatedDesc]
  | cons y ys ih =>
    rw [List.pairwise_cons] at h
    obtain ⟨hy, hys⟩ := h
    simp only [insertCreatedDesc]
    split
    · rename_i hlt
      rw [List.pairwise_cons]
      refine ⟨?_, ih hys⟩
      intro a ha
      rcases mem_insertCreatedDesc.1 ha with rfl | ha
      · exact le_of_lt hlt
      · exact hy a ha
    · rename_i hge
      push_neg at hge
      rw [List.pairwise_cons]
      refine ⟨?_, List.pairwise_cons.2 ⟨hy, hys⟩⟩
      intro a ha
      rcases List.mem_cons.1 ha with rfl | ha
      · exact hge
      · exact le_trans (hy a ha) hge

theorem pairwise_sortCreatedDesc (l : List Place) :
    (sortCreatedDesc l).Pairwise (fun a b => b.created_at ≤ a.created_at) := by
  induction l with
  | nil => simp [sortCreatedDesc]
  | cons y ys ih => exact pairwise_insertCreatedDesc ih

theorem score_le_of_trendRel {a b : TrendingEntry} (h : trendRel a b) :
    b.score2 ≤ a.score2 := by
  rcases h with h | ⟨h, _⟩
  · exact le_of_lt h
  · exact le_of_eq h.symm

theorem mem_insertScoreDesc {x a : TrendingEntry} {l : List TrendingEntry} :
    a ∈ insertScoreDesc x l ↔ a = x ∨ a ∈ l := by
  induction l with
  | nil => simp [insertScoreDesc]
  | cons y ys ih =>
    simp only [insertScoreDesc]
    split
    · simp only [List.mem_cons, ih]
      tauto
    · simp only [List.mem_cons]

theorem mem_sortScoreDesc {a : TrendingEntry} {l : List TrendingEntry} :
    a ∈ sortScoreDesc l ↔ a ∈ l := by
  induction l with
  | nil => simp [sortScoreDesc]
  | cons y ys ih =>
    simp only [sortScoreDesc, mem_insertScoreDesc, ih, List.mem_cons]

theorem length_insertScoreDesc (x : TrendingEntry) (l : List TrendingEntry) :
    (insertScoreDesc x l).length = l.length + 1 := by
  induction l with
  | nil => rfl
  | cons y ys ih =>
    simp only [insertScoreDesc]
    split
    · simp [ih]
    · simp

theorem length_sortScoreDesc (l : List TrendingEntry) :
    (sortScoreDesc l).length = l.length := by
  induction l with
  | nil => rfl
  | cons y ys ih => simp [sortScoreDesc, length_insertScoreDesc, ih]

theorem pairwise_insertScoreDesc {x : TrendingEntry} {l : List TrendingEntry}
    (hl : l.Pairwise trendRel)
    (hc : ∀ y ∈ l, y.place.created_at ≤ x.place.created_at) :
    (insertScoreDesc x l).Pairwise trendRel := by
  induction l with
  | nil => simp [insertScoreDesc]
  | cons y ys ih =>
    rw [List.pairwise_cons] at hl
    obtain ⟨hy, hys⟩ := hl
    simp only [insertScoreDesc]
    split
    · rename_i hlt
      rw [List.pairwise_cons]
      refine ⟨?_, ih hys (fun z hz => hc z (List.mem_cons_of_mem y hz))⟩
      intro a ha
      rcases mem_insertScoreDesc.1 ha with rfl | ha
      · exact Or.inl hlt
      · exact hy a ha
    · rename_i hge
      push_neg at hge
      rw [List.pairwise_cons]
      refine ⟨?_, List.pairwise_cons.2 ⟨hy, hys⟩⟩
      intro a ha
      rcases List.mem_cons.1 ha with rfl | ha
      · rcases lt_or_eq_of_le hge with hlt | heq
        · exact Or.inl hlt
        · exact Or.inr ⟨heq.symm, hc a (List.mem_cons_self a ys)⟩
      · have hle : a.score2 ≤ x.score2 :=
          le_trans (score_le_of_trendRel (hy a ha)) hge
        rcases lt_or_eq_of_le hle with hlt | heq
        · exact Or.inl hlt
        · exact Or.inr ⟨heq.symm, hc a (List.mem_cons_of_mem y ha)⟩

theorem pairwise_sortScoreDesc {l : List TrendingEntry}
    (h : l.Pairwise (fun a b => b.place.created_at ≤ a.place.created_at)) :
    (sortScoreDesc l).Pairwise trendRel := by
  induction l with
  | nil => simp [sortScoreDesc]
  | cons x xs ih =>
    rw [List.pairwise_cons] at h
    exact pairwise_insertScoreDesc (ih h.2)
      (fun y hy => h.1 y (mem_sortScoreDesc.1 hy))

theorem trendingEntryOf_some {now : Int} {store : List Place} {p : Place}
    {e : TrendingEntry} (h : trendingEntryOf now store p = some e) :
    e.place = p ∧
    e.saves_7d = savesWithin store p.google_place_id (now - 7) ∧
    e.saves_30d = savesWithin store p.google_place_id (now - 30) ∧
    e.score2 = trendingScore2 e.saves_7d e.saves_30d ∧ 0 < e.score2 := by
  simp only [trendingEntryOf] at h
  split at h
  · rename_i hpos
    cases h
    exact ⟨rfl, rfl, rfl, rfl, hpos⟩
  · cases h

theorem mem_trendingData {now : Int} {store : List Place} {e : TrendingEntry}
    (h : e ∈ trendingData now store) :
    e.place ∈ store ∧
    e.saves_7d = savesWithin store e.place.google_place_id (now - 7) ∧
    e.saves_30d = savesWithin store e.place.google_place_id (now - 30) ∧
    e.score2 = trendingScore2 e.saves_7d e.saves_30d ∧ 0 < e.score2 := by
  simp only [trendingData] at h
  obtain ⟨p, hp, hpe⟩ := List.mem_filterMap.1 h
  obtain ⟨hplace, h7, h30, hscore, hpos⟩ := trendingEntryOf_some hpe
  subst hplace
  exact ⟨mem_sortCreatedDesc.1 hp, h7, h30, hscore, hpos⟩

theorem pairwise_trendingData (now : Int) (store : List Place) :
    (trendingData now store).Pairwise
      (fun a b => b.place.created_at ≤ a.place.created_at) := by
  simp only [trendingData]
  rw [List.pairwise_filterMap]
  refine (pairwise_sortCreatedDesc store).imp ?_
  intro p q hpq
  intro b hb b' hb'
  rw [(trendingEntryOf_some hb).1, (trendingEntryOf_some hb').1]
  exact hpq

theorem mem_of_mem_get_trending {u : Nat} {now : Int} {store : List Place}
    {e : TrendingEntry} (h : e ∈ get_trending u now store) :
    e ∈ trendingData now store := by
  simp only [get_trending] at h
  have h2 := mem_sortScoreDesc.1 (List.mem_of_mem_take h)
  split at h2
  · exact h2
  · exact (List.mem_filter.1 h2).1

theorem contains_eq_false_iff {α : Type} [BEq α] [LawfulBEq α]
    {l : List α} {a : α} : l.contains a = false ↔ a ∉ l := by
  simp [List.contains]

/-- Everything the picked-for-you accumulation loop guarantees, by induction
over the remaining rows: the output extends the accumulator by a subsequence
of the input whose members pass both the saved filter and the seen filter,
with pairwise distinct google_place_id values, never exceeding 10 results. -/
theorem pickLoop_spec (saved : List (Option String)) :
    ∀ (places : List Place) (seen : List (Option String)) (acc : List Place),
      acc.length < 10 →
      ∃ s, pickLoop saved places seen acc = acc ++ s ∧
        s.Sublist places ∧
        (∀ p ∈ s, p.google_place_id ∉ saved ∧ p.google_place_id ∉ seen) ∧
        s.Pairwise (fun a b => a.google_place_id ≠ b.google_place_id) ∧
        (acc ++ s).length ≤ 10 := by
  intro places
  induction places with
  | nil =>
    intro seen acc hacc
    refine ⟨[], by simp [pickLoop], List.nil_sublist _, by simp,
      List.Pairwise.nil, ?_⟩
    simpa using le_of_lt hacc
  | cons p rest ih =>
    intro seen acc hacc
    by_cases hskip :
        (saved.contains p.google_place_id ||
          seen.contains p.google_place_id) = true
    · obtain ⟨s, h1, h2, h3, h4, h5⟩ := ih seen acc hacc
      refine ⟨s, ?_, h2.cons p, h3, h4, h5⟩
      simp only [pickLoop]
      rw [if_pos hskip]
      exact h1
    · rw [Bool.or_eq_true, not_or] at hskip
      obtain ⟨hsv, hsn⟩ := hskip
      rw [Bool.not_eq_true] at hsv hsn
      rw [contains_eq_false_iff] at hsv hsn
      have hcond : ¬((saved.contains p.google_place_id ||
          seen.contains p.google_place_id) = true) := by
        simp [List.contains, hsv, hsn]
      by_cases hlen : 10 ≤ (acc ++ [p]).length
      · refine ⟨[p], ?_, (List.nil_sublist rest).cons₂ p, ?_, by simp, ?_⟩
        · simp only [pickLoop]
          rw [if_neg hcond, if_pos hlen]
        · intro q hq
          rw [List.mem_singleton] at hq
          subst hq
          exact ⟨hsv, hsn⟩
        · have : (acc ++ [p]).length = acc.length + 1 := by simp
          omega
      · have hlt : (acc ++ [p]).length < 10 := lt_of_not_ge hlen
        obtain ⟨s, h1, h2, h3, h4, h5⟩ :=
          ih (seen ++ [p.google_place_id]) (acc ++ [p]) hlt
        refine ⟨p :: s, ?_, h2.cons₂ p, ?_, ?_, ?_⟩
        · simp only [pickLoop]
          rw [if_neg hcond, if_neg hlen, h1]
          simp
        · intro q hq
          rcases List.mem_cons.1 hq with rfl | hq
          · exact ⟨hsv, hsn⟩
          · obtain ⟨hq1, hq2⟩ := h3 q hq
            rw [List.mem_append, not_or] at hq2
            exact ⟨hq1, hq2.1⟩
        · rw [List.pairwise_cons]
          refine ⟨?_, h4⟩
          intro q hq
          obtain ⟨_, hq2⟩ := h3 q hq
          rw [List.mem_append, not_or] at hq2
          intro hctr
          exact hq2.2 (by simp [hctr])
        · have : (acc ++ p :: s).length = ((acc ++ [p]) ++ s).length := by
            simp
          omega

/-- In a table whose rows have pairwise distinct primary keys, two member
rows with the same id are the same row. -/
theorem eq_of_mem_pairwise_id {store : List Place} {p q : Place}
    (hpair : store.Pairwise (fun a b => a.id ≠ b.id))
    (hp : p ∈ store) (hq : q ∈ store) (hid : p.id = q.id) : p = q := by
  induction store with
  | nil => cases hp
  | cons x xs ih =>
    rw [List.pairwise_cons] at hpair
    rcases List.mem_cons.1 hp with hpx | hp2
    · subst hpx
      rcases List.mem_cons.1 hq with hqx | hq2
      · rw [hqx]
      · exact absurd hid (hpair.1 q hq2)
    · rcases List.mem_cons.1 hq with hqx | hq2
      · subst hqx
        exact absurd hid.symm (hpair.1 p hp2)
      · exact ih hpair.2 hp2 hq2

/-- A successful search can never produce the NotFound outcome of
enrich_place_data: every path starting from a some search result returns
either the basic or the full record. -/
theorem enrich_some_ne_notFound (key : String) (sr : SearchBasic)
    (details : String → Option DetailsData) :
    enrich_place_data key (some sr) details ≠ .notFound := by
  simp only [enrich_place_data]
  cases hpid : sr.place_id with
  | none => simp
  | some pid =>
    cases hd : details pid with
    | none => simp [hd]
    | some d => simp [hd]

/-!
Claim theorems.
-/

/-- Claim C1: the idempotence contract holds on the URL-import path of
main.py but is broken by the manual pin path. In the concrete scenario the
first URL import of the candidate with external id g1 creates row 1; after
the user marks it visited and favorite and writes a note, a second identical
URL import returns the same internal id 1, creates no row and leaves that
user state intact. Running the same scenario through pin_place instead
inserts a second row with the fresh id 2 for the same (user, external id)
pair, violating both the per-pair constraint and the declared global
uniqueness constraint — at the storage layer the second pin raises instead
of returning the existing place. -/
theorem import_idempotent_but_pin_place_duplicates :
    (importedPlace c1r1).map (fun p => p.id) = some 1 ∧
    c1db1.places.length = 1 ∧
    (importedPlace c1r2).map (fun p => p.id) = some 1 ∧
    importedDB c1db0 c1r2 = c1db2 ∧
    (importedPlace c1r2).map (fun p => p.is_visited) = some true ∧
    (importedPlace c1r2).map (fun p => p.is_favorite) = some true ∧
    (importedPlace c1r2).map (fun p => p.user_notes) = some (some "note") ∧
    (importedPlace c1s1).map (fun p => p.id) = some 1 ∧
    (importedPlace c1s2).map (fun p => p.id) = some 2 ∧
    c1dbp2.places.length = 2 ∧
    uniqueGoogleIdOk c1dbp2.places = false ∧
    specPairUniqueOk c1dbp2.places = false := by decide

/-- Claim C2: the schema declares google_place_id globally unique
(models.py, unique=True), not unique per (owning user, external_id): a
two-user store in which each user owns a copy of venue g1 satisfies the
per-pair constraint the claim states but violates the constraint the code
declares, so user B's insert fails at the storage layer instead of
succeeding. -/
theorem unique_constraint_is_global_not_per_user :
    placeUserA.user_id ≠ placeUserB.user_id ∧
    placeUserA.google_place_id = some "g1" ∧
    placeUserB.google_place_id = some "g1" ∧
    specPairUniqueOk [placeUserA, placeUserB] = true ∧
    uniqueGoogleIdOk [placeUserA] = true ∧
    uniqueGoogleIdOk [placeUserA, placeUserB] = false := by decide

/-- Claim C3 counterexample: the precedence order of the claim (bars before
cafes) is not the order of the code — get_category_from_tags maps a list
carrying both a bar and a cafe tag to cafes — and the claim that the tag
list restaurant, bar never resolves to the restaurant bucket fails for the
helper _infer_category_from_types, which scans the tag list in order. -/
theorem category_precedence_counterexample :
    get_category_from_tags ["bar", "cafe"] = "cafes" ∧
    infer_category_from_types ["restaurant", "bar"] none =
      ("Restaurant", "🍽️") := by decide

/-- Claim C3 (amended): get_category_from_tags checks the buckets in the
fixed precedence order cafes, bars, shops, leisure, go_out, nature, culture,
restaurant/food last, first matching bucket winning with a default of eat —
it equals the first-matching-bucket scan of categoryBucketsInOrder on every
tag list — and resolves the tag list restaurant, bar to bars; the helper
_infer_category_from_types instead takes the first tag present in its
mapping, resolving the same list to the restaurant bucket. -/
theorem category_precedence_amended :
    (∀ tags, get_category_from_tags tags = categoryByPrecedence tags) ∧
    get_category_from_tags ["restaurant", "bar"] = "bars" ∧
    get_category_from_tags [] = "eat" ∧
    infer_category_from_types ["restaurant", "bar"] none =
      ("Restaurant", "🍽️") := by
  exact ⟨fun tags => rfl, by decide, rfl, by decide⟩

/-- Claim C6 counterexample: a successful search (place id g1) followed by a
failing details call makes enrich_place_data return the basic search record,
not the NotFound outcome. -/
theorem resolution_details_failure_counterexample :
    enrich_place_data "key" (some c6Search) (fun _ => none) =
      .basic c6Search ∧
    c6Search.place_id = some "g1" ∧
    EnrichResult.basic c6Search ≠ EnrichResult.notFound := by
  exact ⟨rfl, rfl, by decide⟩

/-- Claim C6 (amended): enrich_place_data — the resolver used by the
live import endpoints — yields NotFound exactly when the search fails; a failed
details call (or a result without a place id) falls back to the basic
search record. The helper fetch_place_details_from_google is the one that
fails exactly when the search finds nothing or the details call fails (or
the API key is unset). -/
theorem resolution_notfound_conditions :
    (∀ (key : String) (search : Option SearchBasic)
        (details : String → Option DetailsData),
      enrich_place_data key search details = .notFound ↔ search = none) ∧
    (∀ (apiKey : Option String) (find : Candidate → Option String)
        (details : String → Option RawPlaceDetails) (c : Candidate),
      fetch_place_details_from_google apiKey find details c = none ↔
        apiKey = none ∨ find c = none ∨
          ∃ pid, find c = some pid ∧ details pid = none) := by
  constructor
  · intro key search details
    cases search with
    | none => simp [enrich_place_data]
    | some sr =>
      exact iff_of_false (enrich_some_ne_notFound key sr details) (by simp)
  · intro apiKey find details c
    cases apiKey with
    | none => simp [fetch_place_details_from_google]
    | some key =>
      cases hf : find c with
      | none => simp [fetch_place_details_from_google, hf]
      | some pid =>
        cases hd : details pid with
        | none => simp [fetch_place_details_from_google, hf, hd]
        | some det => simp [fetch_place_details_from_google, hf, hd]

/-- Claim C10: each of the three aggregation views evaluated over an empty
place store returns the empty list for every requesting user. -/
theorem aggregation_views_empty_corpus (u : Nat) (now : Int) :
    get_trending u now [] = [] ∧ get_picked_for_you u [] = [] ∧
    get_support_local u [] = [] :=
  ⟨rfl, rfl, rfl⟩

/-- Claim C4 counterexample: the trending query does not group rows by
external id — venue g1, saved recently by users 2 and 3, appears twice in
the trending result of user 1 (who saved nothing), refuting the claim that a
venue saved by several users appears at most once. -/
theorem trending_no_grouping_counterexample :
    (get_trending 1 100 c4store).map (fun e => e.place.google_place_id) =
      [some "g1", some "g1"] ∧
    (get_trending 1 100 c4store).map (fun e => e.place.user_id) =
      [2, 3] := by decide

/-- Claim C4 (amended): trending scores every Place row (save) individually
— a venue saved by several users contributes one candidate per save, each
carrying the counts of all rows sharing its external id across all users —
with float score 2 times the 7-day count plus 0.5 times the 30-day count
(stated below through the doubled integer score), drops zero-score rows,
sorts descending by score with ties broken by the more recent save, and
returns at most the top 10. -/
theorem trending_per_save_scoring (u : Nat) (now : Int) (store : List Place) :
    (get_trending u now store).length ≤ 10 ∧
    (∀ e ∈ get_trending u now store,
      e.place ∈ store ∧
      e.saves_7d = savesWithin store e.place.google_place_id (now - 7) ∧
      e.saves_30d = savesWithin store e.place.google_place_id (now - 30) ∧
      (e.score2 : ℚ) / 2 =
        2 * (e.saves_7d : ℚ) + (1 / 2) * (e.saves_30d : ℚ) ∧
      0 < e.score2) ∧
    (get_trending u now store).Pairwise trendRel := by
  refine ⟨?_, ?_, ?_⟩
  · simp only [get_trending]
    rw [List.length_take]
    exact inf_le_left
  · intro e he
    obtain ⟨hmem, h7, h30, hscore, hpos⟩ :=
      mem_trendingData (mem_of_mem_get_trending he)
    refine ⟨hmem, h7, h30, ?_, hpos⟩
    rw [hscore]
    unfold trendingScore2
    push_cast
    ring
  · simp only [get_trending]
    refine List.Pairwise.sublist (List.take_sublist _ _) ?_
    apply pairwise_sortScoreDesc
    split
    · exact pairwise_trendingData now store
    · exact (pairwise_trendingData now store).filter _

/-- Witness for the amended C4 theorem at the concrete two-user store: the
top entry is user 2's copy of g1, its 7-day and 30-day counts are both 2 and
its score is positive. -/
theorem trending_per_save_scoring_witness :
    c4e1 ∈ get_trending 1 100 c4store ∧
    c4e1.saves_7d = savesWithin c4store c4e1.place.google_place_id (100 - 7) ∧
    0 < c4e1.score2 := by
  have h := (trending_per_save_scoring 1 100 c4store).2.1 c4e1 (by decide)
  exact ⟨by decide, h.2.1, h.2.2.2.2⟩

/-- Claim C5 counterexample: a venue saved by another user exists in the
corpus (user 2's row, 40 days old), yet the requesting user's own pinned
venue g1 still appears in their trending result — the exclusion branch is
keyed on score-positive rows of other users, and the stale row scores
zero. -/
theorem trending_exclusion_counterexample :
    c5store.any (fun p => !(p.user_id == 1)) = true ∧
    (userSavedGids 1 c5store).contains (some "g1") = true ∧
    (get_trending 1 100 c5store).map
      (fun e => (e.place.id, e.place.user_id)) = [(1, 1)] := by decide

/-- Claim C5 (amended): the exclusion trigger is the presence of a
score-positive row of another user among the trending candidates, not mere
presence of an other-user venue in the corpus. When such a row exists, no
returned entry carries an external id the requesting user has saved (in
particular, in the spec scenario of a venue saved by the requester five days
ago and by another user twenty days ago — candidate float score 3, doubled
score 6 — the result is empty); when every candidate belongs to the
requester, no exclusion is applied and all candidates are returned whenever
at most 10 exist. -/
theorem trending_exclusion_conditions (u : Nat) (now : Int)
    (store : List Place) :
    ((∃ it ∈ trendingData now store, it.place.user_id ≠ u) →
      ∀ e ∈ get_trending u now store,
        e.place.google_place_id ∉ userSavedGids u store) ∧
    ((∀ it ∈ trendingData now store, it.place.user_id = u) →
      (trendingData now store).length ≤ 10 →
      ∀ e ∈ trendingData now store, e ∈ get_trending u now store) ∧
    get_trending 1 100 c5specStore = [] := by
  refine ⟨?_, ?_, by decide⟩
  · rintro ⟨it, hit, hne⟩ e he
    have hmemf : it ∈ (trendingData now store).filter
        (fun it => !(it.place.user_id == u)) :=
      List.mem_filter.2 ⟨hit, by simp [hne]⟩
    have hcond : ((trendingData now store).filter
        (fun it => !(it.place.user_id == u))).isEmpty = false :=
      List.isEmpty_eq_false.2 (List.ne_nil_of_mem hmemf)
    simp only [get_trending] at he
    rw [if_neg (by simp [hcond])] at he
    have he2 := mem_sortScoreDesc.1 (List.mem_of_mem_take he)
    have he3 := (List.mem_filter.1 he2).2
    rw [Bool.not_eq_true'] at he3
    exact contains_eq_false_iff.1 he3
  · intro hall hlen e he
    have hempty : (trendingData now store).filter
        (fun it => !(it.place.user_id == u)) = [] := by
      rw [List.filter_eq_nil_iff]
      intro it hit
      simp [hall it hit]
    simp only [get_trending]
    rw [if_pos (by simp [hempty]), List.take_of_length_le
      (by rw [length_sortScoreDesc]; exact hlen)]
    exact mem_sortScoreDesc.2 he

/-- Witness for the amended C5 theorem at the spec scenario store: user 2's
twenty-day-old save of venue v is a score-positive candidate, so every entry
of the requester's trending result avoids the requester's saved ids — here
vacuously, the result being empty. -/
theorem trending_exclusion_conditions_witness :
    (∃ it ∈ trendingData 100 c5specStore, it.place.user_id ≠ 1) ∧
    (∀ e ∈ get_trending 1 100 c5specStore,
      e.place.google_place_id ∉ userSavedGids 1 c5specStore) := by
  have hex : ∃ it ∈ trendingData 100 c5specStore, it.place.user_id ≠ 1 :=
    ⟨{ place := mkPlace 2 2 (some "v") 80, score2 := 6,
       saves_7d := 1, saves_30d := 2 }, by decide, by decide⟩
  exact ⟨hex, (trending_exclusion_conditions 1 100 c5specStore).1 hex⟩

/-- Whatever the oracle returns, the backfill script step only ever rewrites
the opening_hours and photo_url fields, and rewrites each only when it was
missing. -/
theorem backfill_place_shape (details : String → Option RawPlaceDetails)
    (key : String) (p : Place) :
    ∃ oh pu, backfill_place details key p =
      { p with opening_hours := oh, photo_url := pu } ∧
      (p.opening_hours.isSome → oh = p.opening_hours) ∧
      (p.photo_url.isSome → pu = p.photo_url) := by
  simp only [backfill_place]
  repeat' split
  all_goals
    first
    | exact ⟨p.opening_hours, p.photo_url, rfl, fun _ => rfl, fun _ => rfl⟩
    | refine ⟨_, _, rfl, ?_, ?_⟩ <;> intro hs <;> simp_all

/-- Whatever the oracle returns, the admin endpoint step only ever rewrites
opening_hours, only when it was missing, and skips the row entirely when
opening_hours is present. -/
theorem run_backfill_place_shape (details : String → Option RawPlaceDetails)
    (p : Place) :
    ∃ oh, run_backfill_place details p = { p with opening_hours := oh } ∧
      (p.opening_hours.isSome → run_backfill_place details p = p) := by
  simp only [run_backfill_place]
  repeat' split
  all_goals
    first
    | exact ⟨p.opening_hours, rfl, fun _ => rfl⟩
    | (refine ⟨_, rfl, ?_⟩
       intro hs
       simp_all)

/-- Claim C8 counterexample: a place whose photo_url is missing (with
opening_hours present, an external id, and a provider photo available) is
left completely untouched by the run_backfill admin endpoint — photo_url is
not a candidate for filling there — while the standalone backfill script
would fill it. -/
theorem run_backfill_ignores_photo_counterexample :
    c8place.photo_url = none ∧
    c8place.google_place_id.isSome = true ∧
    (c8details "g1").isSome = true ∧
    run_backfill_place c8details c8place = c8place ∧
    (backfill_place c8details "key" c8place).photo_url =
      some (backfillPhotoUrl "key" "ref1") := by decide

/-- Claim C8 (amended): both backfill paths are non-destructive — a present
opening_hours or photo_url is never overwritten and user state (is_visited,
is_favorite, user_notes, tags) and identity are never touched — and in the
standalone script both missing fields are candidates for filling (both get
filled in the concrete scenario below), whereas the admin endpoint
run_backfill never writes photo_url at all and skips any row whose
opening_hours is present. -/
theorem backfill_non_destructive (details : String → Option RawPlaceDetails)
    (key : String) (p : Place) :
    ((p.opening_hours.isSome →
        (backfill_place details key p).opening_hours = p.opening_hours) ∧
      (p.photo_url.isSome →
        (backfill_place details key p).photo_url = p.photo_url) ∧
      (backfill_place details key p).is_visited = p.is_visited ∧
      (backfill_place details key p).is_favorite = p.is_favorite ∧
      (backfill_place details key p).user_notes = p.user_notes ∧
      (backfill_place details key p).tags = p.tags ∧
      (backfill_place details key p).id = p.id ∧
      (backfill_place details key p).user_id = p.user_id ∧
      (backfill_place details key p).google_place_id = p.google_place_id ∧
      (backfill_place details key p).created_at = p.created_at) ∧
    ((run_backfill_place details p).photo_url = p.photo_url ∧
      (p.opening_hours.isSome → run_backfill_place details p = p) ∧
      (run_backfill_place details p).is_visited = p.is_visited ∧
      (run_backfill_place details p).is_favorite = p.is_favorite ∧
      (run_backfill_place details p).user_notes = p.user_notes ∧
      (run_backfill_place details p).tags = p.tags) ∧
    ((backfill_place c8details "key" c8placeBoth).opening_hours =
        some ["Monday: 5:00 PM"] ∧
      (backfill_place c8details "key" c8placeBoth).photo_url =
        some (backfillPhotoUrl "key" "ref1")) := by
  obtain ⟨oh, pu, heq, hoh, hpu⟩ := backfill_place_shape details key p
  obtain ⟨oh2, heq2, hskip⟩ := run_backfill_place_shape details p
  refine ⟨⟨fun h => ?_, fun h => ?_, ?_, ?_, ?_, ?_, ?_, ?_, ?_, ?_⟩,
    ⟨?_, hskip, ?_, ?_, ?_, ?_⟩, by decide, by decide⟩
  all_goals first | rw [heq] | rw [heq2]
  · exact hoh h
  · exact hpu h

/-- Witness for the amended C8 theorem: on the concrete place with
opening_hours present and photo_url missing, the script keeps opening_hours
and the endpoint keeps the row unchanged. -/
theorem backfill_non_destructive_witness :
    c8place.opening_hours.isSome = true ∧
    (backfill_place c8details "key" c8place).opening_hours =
      c8place.opening_hours ∧
    run_backfill_place c8details c8place = c8place := by
  have h := backfill_non_destructive c8details "key" c8place
  exact ⟨by decide, h.1.1 (by decide), h.2.1.2.1 (by decide)⟩

/-- Claim C9: owner isolation of the single-place operations — under the
primary-key invariant (pairwise distinct row ids), a read, update or delete
issued by a user against a row owned by a different user returns the
not-found outcome and leaves the store unchanged. -/
theorem owner_isolation (u place_id : Nat) (store : List Place)
    (req : UpdateReq) (now : Int) (p : Place)
    (hmem : p ∈ store) (hid : p.id = place_id) (hneq : p.user_id ≠ u)
    (hkeys : store.Pairwise (fun a b => a.id ≠ b.id)) :
    get_place u place_id store = none ∧
    update_place u place_id req now store = (none, store) ∧
    delete_place u place_id store = (false, store) := by
  have hfind : store.find? (fun q => q.id == place_id && q.user_id == u)
      = none := by
    rw [List.find?_eq_none]
    intro q hq hcontra
    rw [Bool.and_eq_true, beq_iff_eq, beq_iff_eq] at hcontra
    obtain ⟨hq1, hq2⟩ := hcontra
    have hqp : q = p :=
      eq_of_mem_pairwise_id hkeys hq hmem (by rw [hq1, hid])
    exact hneq (hqp ▸ hq2)
  refine ⟨hfind, ?_, ?_⟩
  · unfold update_place
    rw [hfind]
  · unfold delete_place
    rw [hfind]

/-- Claim C7: when no other user owns any row, picked-for-you returns the
requesting user's own most recent (at most) 10 rows; otherwise it returns at
most 10 rows owned by other users, none of whose external ids the requester
has saved, deduplicated by external id, ordered most recent first (the
result is sorted by descending created_at). -/
theorem picked_for_you_ok (u : Nat) (store : List Place) :
    (store.filter (fun p => !(p.user_id == u)) = [] →
      get_picked_for_you u store =
        (sortCreatedDesc (store.filter (fun p => p.user_id == u))).take 10) ∧
    (store.filter (fun p => !(p.user_id == u)) ≠ [] →
      (get_picked_for_you u store).length ≤ 10 ∧
      (∀ p ∈ get_picked_for_you u store,
        p ∈ store ∧ p.user_id ≠ u ∧
        p.google_place_id ∉ userSavedGids u store) ∧
      (get_picked_for_you u store).Pairwise
        (fun a b => a.google_place_id ≠ b.google_place_id) ∧
      (get_picked_for_you u store).Pairwise
        (fun a b => b.created_at ≤ a.created_at)) := by
  constructor
  · intro h
    simp only [get_picked_for_you, h]
    rfl
  · intro h
    have hne : (sortCreatedDesc
        (store.filter (fun p => !(p.user_id == u)))).isEmpty = false := by
      rw [List.isEmpty_eq_false]
      intro hnil
      exact h (sortCreatedDesc_eq_nil_iff.1 hnil)
    obtain ⟨s, h1, h2, h3, h4, h5⟩ := pickLoop_spec (userSavedGids u store)
      (sortCreatedDesc (store.filter (fun p => !(p.user_id == u)))) [] []
      (by norm_num)
    have hres : get_picked_for_you u store = s := by
      simp only [get_picked_for_you]
      rw [if_neg (by simp [hne])]
      simpa using h1
    rw [hres]
    refine ⟨by simpa using h5, ?_, h4, ?_⟩
    · intro p hp
      have hmem : p ∈ sortCreatedDesc
          (store.filter (fun q => !(q.user_id == u))) := h2.subset hp
      have hmem2 := mem_sortCreatedDesc.1 hmem
      obtain ⟨hst, hflt⟩ := List.mem_filter.1 hmem2
      rw [Bool.not_eq_true', beq_eq_false_iff_ne] at hflt
      exact ⟨hst, hflt, (h3 p hp).1⟩
    · exact List.Pairwise.sublist h2 (pairwise_sortCreatedDesc _)

/-- Witness for the C7 theorem: in the four-row store where user 2 owns two
copies of venue g1 and one of venue g2 while the requester (user 1) pinned
venue g2, the recommendation is exactly the most recent copy of g1. -/
theorem picked_for_you_ok_witness :
    c7store.filter (fun p => !(p.user_id == 1)) ≠ [] ∧
    (get_picked_for_you 1 c7store).map (fun p => p.id) = [1] ∧
    (get_picked_for_you 1 c7store).length ≤ 10 ∧
    (get_picked_for_you 1 c7store).Pairwise
      (fun a b => a.google_place_id ≠ b.google_place_id) := by
  have h := (picked_for_you_ok 1 c7store).2 (by decide)
  exact ⟨by decide, by decide, h.1, h.2.2.1⟩

/-- Witness for the C9 theorem: user 1 cannot read, update or delete the row
with id 7 owned by user 2. -/
theorem owner_isolation_witness :
    mkPlace 7 2 (some "g1") 50 ∈ c9store ∧
    get_place 1 7 c9store = none ∧
    update_place 1 7 { is_visited := some true } 60 c9store =
      (none, c9store) ∧
    delete_place 1 7 c9store = (false, c9store) := by
  have h := owner_isolation 1 7 c9store { is_visited := some true } 60
    (mkPlace 7 2 (some "g1") 50) (by simp [c9store]) (by decide) (by decide)
    (by simp [c9store])
  exact ⟨by simp [c9store], h.1, h.2.1, h.2.2⟩

end Radar
